import Mathlib

/-!
Shallow embedding of the blog record-storage service (src/src/main.go).

The program stores one JSON file per blog record under a fixed directory,
keyed by the record's integer identifier.  We model:

* `Blog` — the Go `Blog` struct.  Go `time.Time` values are modelled as
  `Nat` clock ticks with `0` playing the role of the zero value
  (`time.Time.IsZero`).  Go `int` fields are modelled as `Int`; the
  arithmetic the program performs on them (`len(files) + 1`,
  `blog.ViewCount++`) stays far below machine-int bounds, so no wraparound
  modulus is applied.
* `Store` — the storage directory: an association list from identifier to
  the state of the file `<id>.json`, plus two environment flags describing
  whether the directory can be enumerated (`os.ReadDir`) and whether
  writes succeed (`os.WriteFile`).
* The operations `Blog.Save`, `LoadBlog`, `generateNewBlogID`, and the
  HTTP handlers `getBlogHandler` and `saveBlogHandler`, translated
  line-by-line from the source.  The clock value observed by
  `time.Now()` during a call is passed in as an explicit argument.
-/

/-- The Go `Blog` struct (main.go lines 17–27). -/
structure Blog where
  id : Int
  title : String
  authorID : Int
  content : String
  tags : List String
  createdTime : Nat
  updatedTime : Nat
  isPublished : Bool
  viewCount : Int
deriving Repr, DecidableEq

/-- The state of the file `<id>.json` in the storage directory:
it can be readable well-formed JSON of a `Blog`, readable but not
unmarshalable content, or a file that exists but cannot be read
(`os.ReadFile` fails, e.g. permissions). -/
inductive FileState where
  | valid (b : Blog)
  | corrupt
  | unreadable
deriving Repr, DecidableEq

/-- Why `os.ReadFile` failed: the file does not exist, or some other
I/O failure on an existing file.  Go preserves this distinction inside
the wrapped error (`%w`). -/
inductive OsError where
  | notExist
  | ioFailure
deriving Repr, DecidableEq

/-- Errors produced by `Blog.Save` and `LoadBlog`.  Each constructor is
one `fmt.Errorf` site in main.go. -/
inductive BlogError where
  | readFailed (e : OsError)
  | unmarshalFailed
  | writeFailed
deriving Repr, DecidableEq

/-- The storage directory together with the I/O environment flags.
`files` has one entry per existing file (directory entry); absence from
the list models absence of the file.  `dirReadable` models whether
`os.ReadDir` succeeds, `writeOk` whether `os.WriteFile` succeeds. -/
structure Store where
  files : List (Int × FileState)
  dirReadable : Bool
  writeOk : Bool
deriving Repr, DecidableEq

/-- Look up the file `<id>.json` in the directory. -/
def Store.lookupFile (s : Store) (id : Int) : Option FileState :=
  s.files.lookup id

/-- Overwrite (or create) the file `<id>.json` with new content, as
`os.WriteFile` does.  An existing entry is replaced in place; otherwise
a new directory entry is appended. -/
def writeUnit (fs : List (Int × FileState)) (id : Int) (st : FileState) :
    List (Int × FileState) :=
  match fs with
  | [] => [(id, st)]
  | (k, v) :: rest =>
    if k = id then (id, st) :: rest else (k, v) :: writeUnit rest id st

/-- `Blog.Save` (main.go lines 48–70): stamp `CreatedTime` if zero,
always stamp `UpdatedTime`, marshal, and write the file named by the
record's ID.  The receiver is a pointer, so the timestamp mutations are
visible to the caller even when the write fails; we therefore return
the mutated record alongside the write outcome and the new store.
`json.MarshalIndent` of this struct cannot fail, so that branch is
absent.  `now` is the value of `time.Now()` during the call. -/
def Blog.Save (b : Blog) (now : Nat) (s : Store) :
    Except BlogError Unit × Store × Blog :=
  let b1 := if b.createdTime = 0 then { b with createdTime := now } else b
  let b2 := { b1 with updatedTime := now }
  if s.writeOk then
    (Except.ok (), { s with files := writeUnit s.files b2.id (FileState.valid b2) }, b2)
  else
    (Except.error BlogError.writeFailed, s, b2)

/-- `LoadBlog` (main.go lines 73–86): read the file `<id>.json` and
unmarshal it.  A read failure is wrapped as `readFailed` (the wrapped
error still records whether the file was missing or unreadable, as Go's
`%w` does); content that does not unmarshal yields `unmarshalFailed`. -/
def LoadBlog (s : Store) (id : Int) : Except BlogError Blog :=
  match s.lookupFile id with
  | none => Except.error (BlogError.readFailed OsError.notExist)
  | some FileState.unreadable => Except.error (BlogError.readFailed OsError.ioFailure)
  | some FileState.corrupt => Except.error BlogError.unmarshalFailed
  | some (FileState.valid b) => Except.ok b

/-- `generateNewBlogID` (main.go lines 198–205): count directory
entries and return count + 1; if `os.ReadDir` fails, log and return
`time.Now().Unix()`.  `nowUnix` is the Unix-seconds clock value during
the call. -/
def generateNewBlogID (s : Store) (nowUnix : Int) : Int :=
  if s.dirReadable then (s.files.length : Int) + 1 else nowUnix

/-- The JSON envelope response as observed by an HTTP caller: status
code plus the `ApiResponse` fields (main.go lines 30–35, 89–103). -/
structure Response where
  status : Nat
  success : Bool
  message : String
  data : Option Blog
  error : String
deriving Repr, DecidableEq

/-- `getBlogHandler` (main.go lines 123–143), after a successful
`getBlogID` parse of the path (the claims under study concern the
store interaction, so the path is given as the parsed `id`).  Any
`LoadBlog` error yields the same 404 "Blog not found" response.  On
success the view count is incremented and `Save` is attempted; a save
failure is only logged, and the (mutated) record is returned either
way. -/
def getBlogHandler (id : Int) (now : Nat) (s : Store) : Response × Store :=
  match LoadBlog s id with
  | Except.error _ =>
    (⟨404, false, "", none, "Blog not found"⟩, s)
  | Except.ok blog =>
    let blog1 := { blog with viewCount := blog.viewCount + 1 }
    let r := blog1.Save now s
    (⟨200, true, "Blog retrieved successfully", some r.2.2, ""⟩, r.2.1)

/-- The HTTP method of a request reaching `saveBlogHandler`. -/
inductive Method where
  | post
  | put
deriving Repr, DecidableEq

/-- A request to `saveBlogHandler`: the method, the result of
`getBlogID` on the path (`none` = path does not match the ID pattern),
and the result of unmarshaling the body (`none` = invalid JSON). -/
structure Request where
  method : Method
  pathID : Option Int
  body : Option Blog
deriving Repr, DecidableEq

/-- Shorthand for the 400-level error responses `saveBlogHandler`
sends via `sendResponse(w, false, "", nil, msg, code)`. -/
def errResponse (msg : String) (code : Nat) : Response :=
  ⟨code, false, "", none, msg⟩

/-- `saveBlogHandler` (main.go lines 146–195): unmarshal the body,
validate non-empty title and content, then for PUT check the body ID
against the path ID, for POST overwrite the ID with
`generateNewBlogID`, and save.  `now` is the `time.Now()` value seen by
`Save`, `nowUnix` the Unix clock seen by `generateNewBlogID` on the
ReadDir-failure path. -/
def saveBlogHandler (r : Request) (now : Nat) (nowUnix : Int) (s : Store) :
    Response × Store :=
  match r.body with
  | none => (errResponse "Invalid JSON format" 400, s)
  | some blog =>
    if blog.title = "" then (errResponse "Title is required" 400, s)
    else if blog.content = "" then (errResponse "Content is required" 400, s)
    else
      match r.method with
      | Method.put =>
        match r.pathID with
        | none => (errResponse "invalid blog ID path" 400, s)
        | some id =>
          if blog.id ≠ id then (errResponse "Blog ID mismatch" 400, s)
          else
            let r1 := blog.Save now s
            match r1.1 with
            | Except.error _ => (errResponse "Failed to save blog" 500, r1.2.1)
            | Except.ok _ =>
              (⟨200, true, "Blog saved successfully", some r1.2.2, ""⟩, r1.2.1)
      | Method.post =>
        let blog1 := { blog with id := generateNewBlogID s nowUnix }
        let r1 := blog1.Save now s
        match r1.1 with
        | Except.error _ => (errResponse "Failed to save blog" 500, r1.2.1)
        | Except.ok _ =>
          (⟨200, true, "Blog saved successfully", some r1.2.2, ""⟩, r1.2.1)

/-- The store-level read (`Get`) as a state transformer.  `LoadBlog`
only calls `os.ReadFile` and `json.Unmarshal`, neither of which
modifies any file or the directory, so the store passes through
unchanged; the embedding records that fact explicitly. -/
def getOp (s : Store) (id : Int) : Except BlogError Blog × Store :=
  (LoadBlog s id, s)

/-- A sequence of `Save` calls on one record, each call receiving the
record returned by the previous one (so the caller round-trips the
returned created-at), paired with the `time.Now()` value of each call.
Returns the store and record after each call. -/
def runSaves : Blog → Store → List Nat → List (Store × Blog)
  | _, _, [] => []
  | b, s, t :: ts =>
    ((b.Save t s).2.1, (b.Save t s).2.2) ::
      runSaves (b.Save t s).2.2 (b.Save t s).2.1 ts

/-- A concrete record used by witnesses: fresh (zero timestamps). -/
def blogW : Blog := ⟨1, "A", 7, "B", ["t"], 0, 0, false, 0⟩

/-- A concrete empty store with working I/O. -/
def storeW : Store := ⟨[], true, true⟩

/-- A store whose unit `1.json` holds content that does not unmarshal. -/
def storeCorrupt : Store := ⟨[(1, FileState.corrupt)], true, true⟩

/-- A store holding a stamped copy of `blogW` at unit 1 whose writes fail. -/
def storeNoWrite : Store :=
  ⟨[(1, FileState.valid { blogW with createdTime := 2, updatedTime := 2 })], true, false⟩

/-- A store that cannot enumerate its directory. -/
def storeNoDir : Store := ⟨[], false, true⟩

/-- A PUT body carrying a nonzero created-at for an identifier that was
never written. -/
def putBody : Blog := ⟨1, "T", 0, "C", [], 12345, 0, false, 0⟩

/-- The PUT request submitting `putBody` at path id 1. -/
def putReq : Request := ⟨Method.put, some 1, some putBody⟩

/-- A POST body carrying an explicit (to-be-ignored) identifier 42. -/
def postBody : Blog := ⟨42, "T", 0, "C", [], 0, 0, false, 0⟩

/-- The POST request submitting `postBody`. -/
def postReq : Request := ⟨Method.post, none, some postBody⟩

/-- A POST request whose body has an empty title. -/
def emptyTitleReq : Request := ⟨Method.post, none, some { postBody with title := "" }⟩

theorem lookup_writeUnit_self (id : Int) (st : FileState) :
    ∀ fs : List (Int × FileState), (writeUnit fs id st).lookup id = some st := by
  intro fs
  induction fs with
  | nil => simp [writeUnit, List.lookup]
  | cons hd tl ih =>
    obtain ⟨k, v⟩ := hd
    by_cases h : k = id
    · subst h
      simp [writeUnit, List.lookup]
    · have hk : (id == k) = false :=
        beq_eq_false_iff_ne.mpr (fun hh => h hh.symm)
      simp [writeUnit, h, List.lookup, hk, ih]

theorem save_blog_eq (b : Blog) (now : Nat) (s : Store) :
    (b.Save now s).2.2 =
      { b with createdTime := if b.createdTime = 0 then now else b.createdTime,
               updatedTime := now } := by
  by_cases h : b.createdTime = 0 <;> by_cases hw : s.writeOk <;>
    simp [Blog.Save, h, hw]

theorem save_store_eq (b : Blog) (now : Nat) (s : Store) (hw : s.writeOk = true) :
    (b.Save now s).2.1 =
      { s with files := writeUnit s.files b.id (FileState.valid (b.Save now s).2.2) } := by
  have hid : (b.Save now s).2.2.id = b.id := by rw [save_blog_eq]
  by_cases h : b.createdTime = 0 <;>
    simp_all [Blog.Save, h, hw]

theorem save_store_eq_fail (b : Blog) (now : Nat) (s : Store) (hw : s.writeOk = false) :
    (b.Save now s).2.1 = s := by
  by_cases h : b.createdTime = 0 <;> simp [Blog.Save, h, hw]

theorem save_ok (b : Blog) (now : Nat) (s : Store) (hw : s.writeOk = true) :
    (b.Save now s).1 = Except.ok () := by
  by_cases h : b.createdTime = 0 <;> simp [Blog.Save, h, hw]

theorem save_fail (b : Blog) (now : Nat) (s : Store) (hw : s.writeOk = false) :
    (b.Save now s).1 = Except.error BlogError.writeFailed := by
  by_cases h : b.createdTime = 0 <;> simp [Blog.Save, h, hw]

theorem save_persists (b : Blog) (now : Nat) (s : Store) (hw : s.writeOk = true) :
    ((b.Save now s).2.1).lookupFile b.id
      = some (FileState.valid (b.Save now s).2.2) := by
  rw [save_store_eq b now s hw]
  exact lookup_writeUnit_self b.id _ s.files

theorem save_writeOk_preserved (b : Blog) (now : Nat) (s : Store) :
    ((b.Save now s).2.1).writeOk = s.writeOk := by
  by_cases h : b.createdTime = 0 <;> by_cases hw : s.writeOk <;>
    simp [Blog.Save, h, hw]

/-- C1: `Save` stamps created-at with the current time exactly when it is
zero/unset on entry and preserves a nonzero caller-supplied created-at
unchanged; it always sets updated-at to the current time; and when the
underlying write succeeds it reports success and the storage unit named
by the record's identifier holds the full resulting record. -/
theorem save_timestamps_and_persists (b : Blog) (now : Nat) (s : Store) :
    (b.createdTime = 0 → ((b.Save now s).2.2).createdTime = now) ∧
    (b.createdTime ≠ 0 → ((b.Save now s).2.2).createdTime = b.createdTime) ∧
    ((b.Save now s).2.2).updatedTime = now ∧
    (s.writeOk = true →
      (b.Save now s).1 = Except.ok () ∧
      ((b.Save now s).2.1).lookupFile b.id
        = some (FileState.valid (b.Save now s).2.2)) := by
  refine ⟨fun h => ?_, fun h => ?_, ?_,
    fun hw => ⟨save_ok b now s hw, save_persists b now s hw⟩⟩
  · rw [save_blog_eq]; simp [h]
  · rw [save_blog_eq]; simp [h]
  · rw [save_blog_eq]

/-- Witness for C1: the fresh record `blogW` saved at time 5 into the
empty store. -/
theorem save_timestamps_and_persists_witness :
    blogW.createdTime = 0 ∧ storeW.writeOk = true ∧
    ((blogW.Save 5 storeW).2.2).createdTime = 5 ∧
    ((blogW.Save 5 storeW).2.2).updatedTime = 5 ∧
    ((blogW.Save 5 storeW).2.1).lookupFile 1
      = some (FileState.valid (blogW.Save 5 storeW).2.2) := by
  have h := save_timestamps_and_persists blogW 5 storeW
  exact ⟨rfl, rfl, h.1 rfl, h.2.2.1, (h.2.2.2 rfl).2⟩

/-- C2: `generateNewBlogID` returns the number of stored units plus one
when the directory can be enumerated, and otherwise swallows the error
and returns the current Unix-seconds time instead. -/
theorem generateNewBlogID_spec (s : Store) (nowUnix : Int) :
    (s.dirReadable = true →
      generateNewBlogID s nowUnix = (s.files.length : Int) + 1) ∧
    (s.dirReadable = false → generateNewBlogID s nowUnix = nowUnix) := by
  constructor <;> intro h <;> simp [generateNewBlogID, h]

/-- Witness for C2: a store with one unit allocates 2; a store whose
directory cannot be enumerated allocates the clock value 9. -/
theorem generateNewBlogID_spec_witness :
    generateNewBlogID storeCorrupt 9 = 2 ∧ generateNewBlogID storeNoDir 9 = 9 := by
  have h1 := (generateNewBlogID_spec storeCorrupt 9).1 rfl
  have h2 := (generateNewBlogID_spec storeNoDir 9).2 rfl
  refine ⟨?_, h2⟩
  rw [h1]; decide

/-- C3 counterexample: a unit that exists but holds corrupt content
produces exactly the same caller-visible response as a unit that does not
exist — the 404 "Blog not found" envelope — so the not-found and
persistence failure modes are not distinguishable to the caller. -/
theorem get_failures_indistinguishable :
    (getBlogHandler 1 5 storeW).1 = (getBlogHandler 1 5 storeCorrupt).1 ∧
    (getBlogHandler 1 5 storeCorrupt).1
      = ⟨404, false, "", none, "Blog not found"⟩ := by
  constructor <;> rfl

/-- C3 amended: `LoadBlog` fails with a read error (wrapping not-exist)
for a missing unit, with the distinct unmarshal error for a corrupt unit,
and with a read error wrapping an I/O failure for an existing unreadable
unit; the handler, however, maps every load failure to the same 404
"Blog not found" response, so the failure modes are not surfaced
distinctly to the HTTP caller. -/
theorem loadBlog_error_modes (s : Store) (id : Int) (now : Nat) :
    (s.lookupFile id = none →
      LoadBlog s id = Except.error (BlogError.readFailed OsError.notExist)) ∧
    (s.lookupFile id = some FileState.corrupt →
      LoadBlog s id = Except.error BlogError.unmarshalFailed) ∧
    (s.lookupFile id = some FileState.unreadable →
      LoadBlog s id = Except.error (BlogError.readFailed OsError.ioFailure)) ∧
    (∀ e, LoadBlog s id = Except.error e →
      (getBlogHandler id now s).1 = ⟨404, false, "", none, "Blog not found"⟩) := by
  refine ⟨fun h => ?_, fun h => ?_, fun h => ?_, fun e he => ?_⟩
  · simp [LoadBlog, h]
  · simp [LoadBlog, h]
  · simp [LoadBlog, h]
  · simp [getBlogHandler, he]

/-- Witness for C3 (amended): the corrupt unit of `storeCorrupt` yields
the unmarshal error at the store level and the generic 404 at the
handler level. -/
theorem loadBlog_error_modes_witness :
    LoadBlog storeCorrupt 1 = Except.error BlogError.unmarshalFailed ∧
    (getBlogHandler 1 5 storeCorrupt).1
      = ⟨404, false, "", none, "Blog not found"⟩ := by
  have h := loadBlog_error_modes storeCorrupt 1 5
  have h2 := h.2.1 rfl
  exact ⟨h2, h.2.2.2 _ h2⟩

/-- C8: the store-level read is side-effect free: `Get` leaves the store
— hence every stored record — unchanged, and an immediately repeated
`Get` with no intervening `Put` returns an identical result; any
view-count change happens in the handler layer, not in the store. -/
theorem get_idempotent (s : Store) (id : Int) :
    (getOp s id).2 = s ∧
    (getOp ((getOp s id).2) id).1 = (getOp s id).1 ∧
    (∀ j, ((getOp s id).2).lookupFile j = s.lookupFile j) :=
  ⟨rfl, rfl, fun _ => rfl⟩

/-- C4: saving a record under a previously-unwritten identifier and then
loading that identifier returns a record equal to the input in every
field except the two timestamps, which `Save` populates. -/
theorem put_then_get_roundtrip (b : Blog) (now : Nat) (s : Store)
    (hw : s.writeOk = true) (_hfresh : s.lookupFile b.id = none) :
    ∃ b2, LoadBlog ((b.Save now s).2.1) b.id = Except.ok b2 ∧
      b2.id = b.id ∧ b2.title = b.title ∧ b2.authorID = b.authorID ∧
      b2.content = b.content ∧ b2.tags = b.tags ∧
      b2.isPublished = b.isPublished ∧ b2.viewCount = b.viewCount ∧
      b2.updatedTime = now ∧
      b2.createdTime = (if b.createdTime = 0 then now else b.createdTime) := by
  refine ⟨(b.Save now s).2.2, ?_, ?_, ?_, ?_, ?_, ?_, ?_, ?_, ?_, ?_⟩
  · have hp := save_persists b now s hw
    simp [LoadBlog, hp]
  all_goals simp [save_blog_eq]

/-- Witness for C4: `blogW` saved at time 5 into the empty store and
loaded back. -/
theorem put_then_get_roundtrip_witness :
    storeW.writeOk = true ∧ storeW.lookupFile 1 = none ∧
    ∃ b2, LoadBlog ((blogW.Save 5 storeW).2.1) 1 = Except.ok b2 ∧
      b2.title = "A" ∧ b2.createdTime = 5 ∧ b2.updatedTime = 5 := by
  obtain ⟨b2, h1, _, h3, _, _, _, _, _, h9, h10⟩ :=
    put_then_get_roundtrip blogW 5 storeW rfl rfl
  refine ⟨rfl, rfl, b2, h1, h3, ?_, h9⟩
  rw [h10]; decide

/-- C6: on a successful load of a valid record the handler increments
the view count by exactly one and attempts to persist; when the persist
succeeds the incremented record is durably stored, and when it fails the
store is untouched but the response is still a 200 success carrying the
incremented record. -/
theorem getBlogHandler_increments_view_count (id : Int) (now : Nat)
    (s : Store) (b : Blog) (h : s.lookupFile id = some (FileState.valid b)) :
    ∃ b2, (getBlogHandler id now s).1
        = ⟨200, true, "Blog retrieved successfully", some b2, ""⟩ ∧
      b2.viewCount = b.viewCount + 1 ∧
      (s.writeOk = true →
        ((getBlogHandler id now s).2).lookupFile b.id
          = some (FileState.valid b2)) ∧
      (s.writeOk = false → (getBlogHandler id now s).2 = s) := by
  have hload : LoadBlog s id = Except.ok b := by simp [LoadBlog, h]
  have hgbh : getBlogHandler id now s =
      (⟨200, true, "Blog retrieved successfully",
        some (({ b with viewCount := b.viewCount + 1 }).Save now s).2.2, ""⟩,
       (({ b with viewCount := b.viewCount + 1 }).Save now s).2.1) := by
    unfold getBlogHandler
    rw [hload]
  refine ⟨(({ b with viewCount := b.viewCount + 1 }).Save now s).2.2,
    ?_, ?_, fun hw => ?_, fun hw => ?_⟩
  · rw [hgbh]
  · simp [save_blog_eq]
  · rw [hgbh]
    exact save_persists { b with viewCount := b.viewCount + 1 } now s hw
  · rw [hgbh]
    exact save_store_eq_fail _ now s hw

/-- Witness for C6: a store holding a valid record at unit 1 whose
writes fail — the response still succeeds with view count 1 and the
store is unchanged. -/
theorem getBlogHandler_increments_view_count_witness :
    storeNoWrite.writeOk = false ∧
    ∃ b2, (getBlogHandler 1 9 storeNoWrite).1
        = ⟨200, true, "Blog retrieved successfully", some b2, ""⟩ ∧
      b2.viewCount = 1 ∧ (getBlogHandler 1 9 storeNoWrite).2 = storeNoWrite := by
  obtain ⟨b2, h1, h2, _, h4⟩ :=
    getBlogHandler_increments_view_count 1 9 storeNoWrite
      { blogW with createdTime := 2, updatedTime := 2 } rfl
  refine ⟨rfl, b2, h1, ?_, h4 rfl⟩
  rw [h2]; decide

/-- C7: a create/update request whose parsed body has an empty title or
an empty content is rejected with a 400 validation error before the
store is reached, and the store is left unchanged. -/
theorem saveBlogHandler_rejects_empty (r : Request) (now : Nat)
    (nowUnix : Int) (s : Store) (blog : Blog) (hb : r.body = some blog)
    (h : blog.title = "" ∨ blog.content = "") :
    (saveBlogHandler r now nowUnix s).2 = s ∧
    (saveBlogHandler r now nowUnix s).1.success = false ∧
    (saveBlogHandler r now nowUnix s).1.status = 400 ∧
    (saveBlogHandler r now nowUnix s).1.data = none := by
  rcases h with h | h
  · simp [saveBlogHandler, hb, h, errResponse]
  · by_cases ht : blog.title = ""
    · simp [saveBlogHandler, hb, ht, errResponse]
    · simp [saveBlogHandler, hb, ht, h, errResponse]

/-- Witness for C7: a POST whose body has an empty title is rejected and
the empty store stays empty. -/
theorem saveBlogHandler_rejects_empty_witness :
    (saveBlogHandler emptyTitleReq 5 5 storeW).2 = storeW ∧
    (saveBlogHandler emptyTitleReq 5 5 storeW).1.success = false ∧
    (saveBlogHandler emptyTitleReq 5 5 storeW).1.status = 400 := by
  have h := saveBlogHandler_rejects_empty emptyTitleReq 5 5 storeW
    { postBody with title := "" } rfl (Or.inl rfl)
  exact ⟨h.1, h.2.1, h.2.2.1⟩

/-- C9: POST ignores any body-supplied identifier: the record in the
response carries the allocator's identifier and is persisted under it,
whatever the body's id field was. -/
theorem post_ignores_body_id (r : Request) (blog : Blog) (now : Nat)
    (nowUnix : Int) (s : Store) (hm : r.method = Method.post)
    (hb : r.body = some blog) (ht : ¬blog.title = "")
    (hc : ¬blog.content = "") (hw : s.writeOk = true) :
    ∃ b2, (saveBlogHandler r now nowUnix s).1.data = some b2 ∧
      b2.id = generateNewBlogID s nowUnix ∧
      ((saveBlogHandler r now nowUnix s).2).lookupFile
        (generateNewBlogID s nowUnix) = some (FileState.valid b2) := by
  have hok := save_ok { blog with id := generateNewBlogID s nowUnix } now s hw
  have hsbh : saveBlogHandler r now nowUnix s =
      (⟨200, true, "Blog saved successfully",
        some (({ blog with id := generateNewBlogID s nowUnix }).Save now s).2.2, ""⟩,
       (({ blog with id := generateNewBlogID s nowUnix }).Save now s).2.1) := by
    simp [saveBlogHandler, hb, hm, ht, hc, hok]
  refine ⟨(({ blog with id := generateNewBlogID s nowUnix }).Save now s).2.2,
    ?_, ?_, ?_⟩
  · rw [hsbh]
  · simp [save_blog_eq]
  · rw [hsbh]
    exact save_persists { blog with id := generateNewBlogID s nowUnix } now s hw

/-- Witness for C9: a POST body carrying id 42 into the empty store is
saved under the allocated id 1, not 42. -/
theorem post_ignores_body_id_witness :
    postBody.id = 42 ∧ storeW.writeOk = true ∧
    ∃ b2, (saveBlogHandler postReq 5 77 storeW).1.data = some b2 ∧
      b2.id = 1 ∧
      ((saveBlogHandler postReq 5 77 storeW).2).lookupFile 1
        = some (FileState.valid b2) := by
  obtain ⟨b2, h1, h2, h3⟩ :=
    post_ignores_body_id postReq postBody 5 77 storeW rfl rfl
      (by decide) (by decide) rfl
  refine ⟨rfl, rfl, b2, h1, ?_, h3⟩
  rw [h2]; decide

theorem runSaves_createdTime_stable :
    ∀ (times : List Nat) (b : Blog) (s : Store), b.createdTime ≠ 0 →
      ∀ p ∈ runSaves b s times, p.2.createdTime = b.createdTime := by
  intro times
  induction times with
  | nil => intro b s hc p hp; simp [runSaves] at hp
  | cons t ts ih =>
    intro b s hc p hp
    have hcr : ((b.Save t s).2.2).createdTime = b.createdTime := by
      rw [save_blog_eq]; simp [hc]
    simp only [runSaves, List.mem_cons] at hp
    rcases hp with hp | hp
    · rw [hp]; exact hcr
    · have hc2 : ((b.Save t s).2.2).createdTime ≠ 0 := by
        rw [hcr]; exact hc
      rw [ih _ _ hc2 p hp, hcr]

theorem runSaves_createdTime_head :
    ∀ (t : Nat) (ts : List Nat) (b : Blog) (s : Store), 0 < t →
      ∀ p ∈ runSaves b s (t :: ts),
        p.2.createdTime = ((b.Save t s).2.2).createdTime := by
  intro t ts b s ht p hp
  simp only [runSaves, List.mem_cons] at hp
  rcases hp with hp | hp
  · rw [hp]
  · have hc : ((b.Save t s).2.2).createdTime ≠ 0 := by
      rw [save_blog_eq]
      show (if b.createdTime = 0 then t else b.createdTime) ≠ 0
      by_cases h : b.createdTime = 0
      · rw [if_pos h]; omega
      · rw [if_neg h]; exact h
    exact runSaves_createdTime_stable ts _ _ hc p hp

theorem runSaves_persists :
    ∀ (times : List Nat) (b : Blog) (s : Store), s.writeOk = true →
      ∀ p ∈ runSaves b s times,
        p.1.lookupFile b.id = some (FileState.valid p.2) := by
  intro times
  induction times with
  | nil => intro b s hw p hp; simp [runSaves] at hp
  | cons t ts ih =>
    intro b s hw p hp
    simp only [runSaves, List.mem_cons] at hp
    rcases hp with hp | hp
    · rw [hp]
      exact save_persists b t s hw
    · have hw2 : ((b.Save t s).2.1).writeOk = true := by
        rw [save_writeOk_preserved]; exact hw
      have hid : ((b.Save t s).2.2).id = b.id := by
        rw [save_blog_eq]
      have hh := ih ((b.Save t s).2.2) ((b.Save t s).2.1) hw2 p hp
      rw [hid] at hh
      exact hh

theorem runSaves_updatedTimes :
    ∀ (times : List Nat) (b : Blog) (s : Store),
      (runSaves b s times).map (fun p => p.2.updatedTime) = times := by
  intro times
  induction times with
  | nil => intro b s; simp [runSaves]
  | cons t ts ih =>
    intro b s
    have hu : ((b.Save t s).2.2).updatedTime = t := by
      rw [save_blog_eq]
    simp [runSaves, hu, ih]

/-- C5: over any sequence of `Save` calls on one identifier, each call
receiving the record returned by the previous one (so the caller
round-trips the returned created-at), with positive non-decreasing clock
values and working writes: every call leaves the record persisted in its
unit, the persisted created-at is the same after every call, and the
persisted updated-at values are exactly the calls' clock values — hence
non-decreasing. -/
theorem save_chain_createdAt_stable (b : Blog) (s : Store)
    (times : List Nat) (hw : s.writeOk = true)
    (hpos : ∀ t ∈ times, 0 < t)
    (hmono : List.Chain' (· ≤ ·) times) :
    (∀ p ∈ runSaves b s times,
      p.1.lookupFile b.id = some (FileState.valid p.2)) ∧
    (∀ p ∈ runSaves b s times, ∀ q ∈ runSaves b s times,
      p.2.createdTime = q.2.createdTime) ∧
    (runSaves b s times).map (fun p => p.2.updatedTime) = times ∧
    List.Chain' (· ≤ ·)
      ((runSaves b s times).map (fun p => p.2.updatedTime)) := by
  refine ⟨runSaves_persists times b s hw, ?_, runSaves_updatedTimes times b s, ?_⟩
  · intro p hp q hq
    cases times with
    | nil => simp [runSaves] at hp
    | cons t ts =>
      have ht : 0 < t := hpos t (List.mem_cons_self t ts)
      rw [runSaves_createdTime_head t ts b s ht p hp,
          runSaves_createdTime_head t ts b s ht q hq]
  · rw [runSaves_updatedTimes times b s]
    exact hmono

/-- Witness for C5: two chained saves of `blogW` at times 3 then 7. -/
theorem save_chain_createdAt_stable_witness :
    storeW.writeOk = true ∧ (∀ t ∈ [3, 7], 0 < t) ∧
    List.Chain' (· ≤ ·) [3, 7] ∧
    (∀ p ∈ runSaves blogW storeW [3, 7], ∀ q ∈ runSaves blogW storeW [3, 7],
      p.2.createdTime = q.2.createdTime) ∧
    (runSaves blogW storeW [3, 7]).map (fun p => p.2.updatedTime) = [3, 7] := by
  have hch : List.Chain' (fun x1 x2 => x1 ≤ x2) ([3, 7] : List Nat) := by
    refine List.chain'_cons.mpr ⟨by norm_num, ?_⟩
    exact List.chain'_singleton 7
  have h := save_chain_createdAt_stable blogW storeW [3, 7] rfl
    (by decide) hch
  exact ⟨rfl, by decide, hch, h.2.1, h.2.2.1⟩

/-- C10 counterexample: a PUT for the never-written identifier 1 whose
body carries the nonzero created-at 12345 succeeds at current time 99,
but the created record's created-at is 12345, not the current time — so
"created-at stamped to the current time" fails as stated. -/
theorem put_preserves_body_createdAt :
    storeW.lookupFile 1 = none ∧
    (saveBlogHandler putReq 99 99 storeW).1.status = 200 ∧
    ((saveBlogHandler putReq 99 99 storeW).2).lookupFile 1
      = some (FileState.valid { putBody with updatedTime := 99 }) ∧
    ({ putBody with updatedTime := 99 }).createdTime = 12345 ∧
    (12345 : Nat) ≠ 99 := by
  refine ⟨rfl, rfl, ?_, rfl, by decide⟩
  rfl

/-- C10 amended: a PUT whose body has non-empty title and content and
whose body id matches the path id is an upsert: even when no record
exists for the identifier it never fails as not-found; when writes
succeed it responds 200 and creates the record, with created-at stamped
to the current time when the body's created-at is zero/unset and equal
to the body's created-at otherwise, and updated-at the current time. -/
theorem put_upserts (r : Request) (blog : Blog) (id : Int) (now : Nat)
    (nowUnix : Int) (s : Store) (hm : r.method = Method.put)
    (hp : r.pathID = some id) (hb : r.body = some blog)
    (ht : ¬blog.title = "") (hc : ¬blog.content = "")
    (hid : blog.id = id) (_hfresh : s.lookupFile id = none) :
    (saveBlogHandler r now nowUnix s).1.status ≠ 404 ∧
    (s.writeOk = true →
      (saveBlogHandler r now nowUnix s).1.status = 200 ∧
      ∃ b2, (saveBlogHandler r now nowUnix s).1.data = some b2 ∧
        ((saveBlogHandler r now nowUnix s).2).lookupFile id
          = some (FileState.valid b2) ∧
        b2.createdTime
          = (if blog.createdTime = 0 then now else blog.createdTime) ∧
        b2.updatedTime = now) := by
  have hne : ¬blog.id ≠ id := fun hh => hh hid
  by_cases hw : s.writeOk
  · have hok := save_ok blog now s hw
    have hsbh : saveBlogHandler r now nowUnix s =
        (⟨200, true, "Blog saved successfully",
          some ((blog.Save now s).2.2), ""⟩, (blog.Save now s).2.1) := by
      simp [saveBlogHandler, hb, hm, hp, ht, hc, hne, hok]
    refine ⟨?_, fun _ => ⟨by rw [hsbh], (blog.Save now s).2.2,
      by rw [hsbh], ?_, ?_, ?_⟩⟩
    · rw [hsbh]
      show (200 : Nat) ≠ 404
      decide
    · rw [hsbh]
      have hperID := save_persists blog now s hw
      rw [hid] at hperID
      exact hperID
    · simp [save_blog_eq]
    · simp [save_blog_eq]
  · have hwf : s.writeOk = false := by
      cases hww : s.writeOk
      · rfl
      · exact absurd hww hw
    have hfail := save_fail blog now s hwf
    have hsbh : saveBlogHandler r now nowUnix s =
        (errResponse "Failed to save blog" 500, (blog.Save now s).2.1) := by
      simp [saveBlogHandler, hb, hm, hp, ht, hc, hne, hfail]
    refine ⟨?_, fun hww => absurd hww hw⟩
    rw [hsbh]
    show (500 : Nat) ≠ 404
    decide

/-- Witness for C10 (amended): the concrete PUT of `putBody` into the
empty store creates the record with the preserved created-at 12345. -/
theorem put_upserts_witness :
    storeW.lookupFile 1 = none ∧ storeW.writeOk = true ∧
    (saveBlogHandler putReq 99 99 storeW).1.status ≠ 404 ∧
    (saveBlogHandler putReq 99 99 storeW).1.status = 200 ∧
    ∃ b2, (saveBlogHandler putReq 99 99 storeW).1.data = some b2 ∧
      ((saveBlogHandler putReq 99 99 storeW).2).lookupFile 1
        = some (FileState.valid b2) ∧
      b2.createdTime = 12345 ∧ b2.updatedTime = 99 := by
  have h := put_upserts putReq putBody 1 99 99 storeW rfl rfl rfl
    (by decide) (by decide) rfl rfl
  obtain ⟨b2, h1, h2, h3, h4⟩ := (h.2 rfl).2
  refine ⟨rfl, rfl, h.1, (h.2 rfl).1, b2, h1, h2, ?_, h4⟩
  rw [h3]; decide
